import Mathlib

/-!
Shallow embedding of the swarm orchestration core of the `vibekanban-cli`
repository (crates `db` and `services`): the swarm data model
(`SwarmExecution`, `SwarmTask`, `ConsensusReview`, `AgentProfile`), the
scheduler (`SwarmManager`), and the consensus engine (`ConsensusService`).

Rust `i32` fields are modelled as `Int` (no overflow occurs for the
quantities involved); `Uuid` keys are modelled as `Nat`; SQL timestamps
(`datetime('now','subsec')`) are modelled as a `Nat` instant supplied by the
caller; the SQLite row set of one execution is modelled as a `List` kept in
the `ORDER BY sequence_order` order in which every query of
`swarm_task.rs` returns it.  The `updated_at` column, which every UPDATE
statement refreshes and nothing reads, is not modelled.
-/

namespace VibeSwarm

/-- `SwarmExecutionStatus` from `db/src/models/swarm_execution.rs`. -/
inductive SwarmExecutionStatus where
  | Planning
  | Planned
  | Executing
  | Reviewing
  | Merging
  | Completed
  | Failed
  | Cancelled
deriving DecidableEq, Repr

/-- `SwarmTaskStatus` from `db/src/models/swarm_task.rs`. -/
inductive SwarmTaskStatus where
  | Pending
  | Blocked
  | Assigned
  | Running
  | Completed
  | Failed
  | Skipped
deriving DecidableEq, Repr

/-- `TaskStatus` of the child `Task` row (`db/src/models/task.rs`), as far as
the swarm manager touches it. -/
inductive TaskStatus where
  | Todo
  | InProgress
  | InReview
  | Done
  | Cancelled
deriving DecidableEq, Repr

/-- `ConsensusVote` from `db/src/models/consensus_review.rs`. -/
inductive ConsensusVote where
  | Pending
  | Approve
  | Reject
  | Abstain
deriving DecidableEq, Repr

/-- The `swarm_executions` row (`db/src/models/swarm_execution.rs`). -/
structure SwarmExecution where
  id : Nat
  epicTaskId : Nat
  status : SwarmExecutionStatus
  plannerOutput : Option String
  reviewerCount : Int
  consensusThreshold : Int
  consensusApprovals : Int
  consensusRejections : Int
  maxParallelWorkers : Int
  errorMessage : Option String
  completedAt : Option Nat
deriving DecidableEq, Repr

/-- `CreateSwarmExecution` (`db/src/models/swarm_execution.rs`). -/
structure CreateSwarmExecution where
  epicTaskId : Nat
  reviewerCount : Option Int
  maxParallelWorkers : Option Int
deriving DecidableEq, Repr

/-- `SwarmExecution::create`: pBFT threshold `2*f+1` with
`f = (reviewer_count - 1) / 3` in Rust `i32` division (truncation toward
zero, `Int.tdiv`); defaults `reviewer_count = 3`, `max_parallel_workers = 3`;
a fresh row starts in the DB-default status `planning` with zero counters. -/
def SwarmExecution.create (id : Nat) (data : CreateSwarmExecution) : SwarmExecution :=
  let reviewerCount := data.reviewerCount.getD 3
  let f := Int.tdiv (reviewerCount - 1) 3
  let consensusThreshold := 2 * f + 1
  let maxParallel := data.maxParallelWorkers.getD 3
  { id := id
    epicTaskId := data.epicTaskId
    status := SwarmExecutionStatus.Planning
    plannerOutput := none
    reviewerCount := reviewerCount
    consensusThreshold := consensusThreshold
    consensusApprovals := 0
    consensusRejections := 0
    maxParallelWorkers := maxParallel
    errorMessage := none
    completedAt := none }

/-- The UPDATE statements of `swarm_execution.rs` that can touch an existing
`swarm_executions` row after creation. -/
inductive ExecutionUpdate where
  | updateStatus (status : SwarmExecutionStatus) (now : Nat)
  | setPlannerOutput (output : String)
  | setError (error : String) (now : Nat)
  | incrementApproval
  | incrementRejection
deriving DecidableEq, Repr

/-- `SwarmExecution::update_status`: sets the status (and a phase timestamp,
of which only `completed_at` is modelled). -/
def SwarmExecution.updateStatus (e : SwarmExecution) (status : SwarmExecutionStatus)
    (now : Nat) : SwarmExecution :=
  match status with
  | SwarmExecutionStatus.Completed => { e with status := status, completedAt := some now }
  | SwarmExecutionStatus.Failed => { e with status := status, completedAt := some now }
  | SwarmExecutionStatus.Cancelled => { e with status := status, completedAt := some now }
  | _ => { e with status := status }

/-- `SwarmExecution::set_error`: `SET error_message = $2, status = 'failed',
completed_at = datetime('now','subsec')`. -/
def SwarmExecution.setError (e : SwarmExecution) (error : String) (now : Nat) :
    SwarmExecution :=
  { e with errorMessage := some error
           status := SwarmExecutionStatus.Failed
           completedAt := some now }

/-- Effect of one post-creation UPDATE of `swarm_execution.rs` on the row. -/
def SwarmExecution.applyUpdate (e : SwarmExecution) : ExecutionUpdate → SwarmExecution
  | ExecutionUpdate.updateStatus st now => e.updateStatus st now
  | ExecutionUpdate.setPlannerOutput o => { e with plannerOutput := some o }
  | ExecutionUpdate.setError err now => e.setError err now
  | ExecutionUpdate.incrementApproval =>
      { e with consensusApprovals := e.consensusApprovals + 1 }
  | ExecutionUpdate.incrementRejection =>
      { e with consensusRejections := e.consensusRejections + 1 }

/-- The `swarm_tasks` row (`db/src/models/swarm_task.rs`).  `depends_on` and
`required_skills` are stored as JSON arrays; they are modelled in parsed form
(`SwarmTask::get_dependencies` / `get_required_skills`). -/
structure SwarmTask where
  id : Nat
  taskId : Nat
  workspaceId : Option Nat
  sequenceOrder : Int
  dependsOn : List Nat
  requiredSkills : List String
  assignedAgentProfileId : Option Nat
  status : SwarmTaskStatus
  branchName : Option String
  complexity : Int
  durationSeconds : Option Int
  errorMessage : Option String
  retryCount : Int
  maxRetries : Int
  startedAt : Option Nat
  completedAt : Option Nat
deriving DecidableEq, Repr

/-- The child `tasks` row, as far as the swarm manager touches it. -/
structure ChildTask where
  id : Nat
  status : TaskStatus
deriving DecidableEq, Repr

/-- An agent profile as the manager sees it: `AgentProfile::find_workers`
returns the active workers ordered by `priority DESC, name`, and
`AgentProfile::get_skills` yields the skill names, inlined here as a field. -/
structure AgentProfile where
  id : Nat
  priority : Int
  skills : List String
deriving DecidableEq, Repr

/-- `UPDATE ... WHERE id = $1` on the task list (`id` is the primary key; the
update rewrites every row whose id matches). -/
def updateTask (tasks : List SwarmTask) (id : Nat) (f : SwarmTask → SwarmTask) :
    List SwarmTask :=
  tasks.map fun t => if t.id = id then f t else t

/-- `SELECT ... WHERE id = $1` (`fetch_optional`). -/
def lookupTask (tasks : List SwarmTask) (id : Nat) : Option SwarmTask :=
  tasks.find? fun t => t.id == id

/-- `UPDATE tasks SET status = ... WHERE id = $1` on the child task list. -/
def updateChildTask (childTasks : List ChildTask) (id : Nat) (status : TaskStatus) :
    List ChildTask :=
  childTasks.map fun c => if c.id = id then { c with status := status } else c

/-- `SwarmTask::assign_agent`: set the agent and status `'assigned'`. -/
def SwarmTask.assignAgentRow (agentProfileId : Nat) (t : SwarmTask) : SwarmTask :=
  { t with assignedAgentProfileId := some agentProfileId
           status := SwarmTaskStatus.Assigned }

/-- `SwarmTask::set_workspace`. -/
def SwarmTask.setWorkspaceRow (workspaceId : Nat) (branchName : String)
    (t : SwarmTask) : SwarmTask :=
  { t with workspaceId := some workspaceId, branchName := some branchName }

/-- `SwarmTask::start`: status `'running'`, `started_at = now`. -/
def SwarmTask.startRow (now : Nat) (t : SwarmTask) : SwarmTask :=
  { t with status := SwarmTaskStatus.Running, startedAt := some now }

/-- `SwarmTask::complete`: status `'completed'`, `completed_at = now`,
`duration_seconds` from `started_at` (NULL when `started_at` is NULL). -/
def SwarmTask.completeRow (now : Nat) (t : SwarmTask) : SwarmTask :=
  { t with status := SwarmTaskStatus.Completed
           completedAt := some now
           durationSeconds := t.startedAt.map fun s => (now : Int) - (s : Int) }

/-- `SwarmTask::fail`: status `'failed'`, error message, `completed_at`. -/
def SwarmTask.failRow (error : String) (now : Nat) (t : SwarmTask) : SwarmTask :=
  { t with status := SwarmTaskStatus.Failed
           errorMessage := some error
           completedAt := some now }

/-- The row update of `SwarmTask::retry`: status `'pending'`,
`retry_count + 1`, `error_message`/`started_at`/`completed_at` nulled
(`workspace_id` and `branch_name` are not touched by the statement). -/
def SwarmTask.retryRow (t : SwarmTask) : SwarmTask :=
  { t with status := SwarmTaskStatus.Pending
           retryCount := t.retryCount + 1
           errorMessage := none
           startedAt := none
           completedAt := none }

/-- `SwarmTask::skip`: status `'skipped'`. -/
def SwarmTask.skipRow (t : SwarmTask) : SwarmTask :=
  { t with status := SwarmTaskStatus.Skipped }

/-- `SwarmTask::find_running_tasks`: `status IN ('running', 'assigned')`. -/
def findRunningTasks (tasks : List SwarmTask) : List SwarmTask :=
  tasks.filter fun t =>
    t.status == SwarmTaskStatus.Running || t.status == SwarmTaskStatus.Assigned

/-- `SwarmTask::find_ready_tasks`: pending tasks all of whose dependencies are
completed. -/
def findReadyTasks (tasks : List SwarmTask) : List SwarmTask :=
  let completedIds :=
    (tasks.filter fun t => t.status == SwarmTaskStatus.Completed).map (fun t => t.id)
  tasks.filter fun t =>
    t.status == SwarmTaskStatus.Pending &&
      t.dependsOn.all fun depId => completedIds.contains depId

/-- `SwarmTask::all_completed`: no row has a status outside
`('completed', 'skipped')`. -/
def allCompleted (tasks : List SwarmTask) : Bool :=
  tasks.all fun t =>
    t.status == SwarmTaskStatus.Completed || t.status == SwarmTaskStatus.Skipped

/-- `SwarmProgress` (`db/src/models/swarm_task.rs`); the counts are
non-negative, so they are modelled as `Nat`. -/
structure SwarmProgress where
  total : Nat
  completed : Nat
  running : Nat
  failed : Nat
  pending : Nat
  skipped : Nat
deriving DecidableEq, Repr

/-- `SwarmTask::get_progress`. -/
def getProgress (tasks : List SwarmTask) : SwarmProgress :=
  { total := tasks.length
    completed := (tasks.filter fun t => t.status == SwarmTaskStatus.Completed).length
    running := (tasks.filter fun t => t.status == SwarmTaskStatus.Running).length
    failed := (tasks.filter fun t => t.status == SwarmTaskStatus.Failed).length
    pending := (tasks.filter fun t => t.status == SwarmTaskStatus.Pending).length
    skipped := (tasks.filter fun t => t.status == SwarmTaskStatus.Skipped).length }

/-- Number of rows with status `'pending'`. -/
def pendingCount (tasks : List SwarmTask) : Nat :=
  (tasks.filter fun t => t.status == SwarmTaskStatus.Pending).length

/-- `SwarmError` (`services/src/services/swarm/manager.rs`). -/
inductive SwarmError where
  | Database (message : String)
  | ExecutionNotFound (id : Nat)
  | NoAvailableWorkers
  | TaskNotFound (id : Nat)
  | InvalidStateTransition (message : String)
  | ExecutionFailed (message : String)
deriving DecidableEq, Repr

/-- `SwarmEvent` (`services/src/services/swarm/manager.rs`). -/
inductive SwarmEvent where
  | TaskStarted (swarmTaskId : Nat) (agentId : Nat)
  | TaskCompleted (swarmTaskId : Nat)
  | TaskFailed (swarmTaskId : Nat) (error : String)
  | ExecutionProgress (progress : SwarmProgress)
  | ExecutionCompleted (swarmExecutionId : Nat)
  | ExecutionFailed (swarmExecutionId : Nat) (error : String)
  | ConsensusRequired (swarmExecutionId : Nat)
deriving DecidableEq, Repr

/-- `SwarmManagerConfig`; only `branch_prefix` influences the modelled
behaviour (`max_parallel_tasks` is unused by the scheduler, which reads
`execution.max_parallel_workers`). -/
structure SwarmManagerConfig where
  branchPfx : String
deriving DecidableEq, Repr

/-- The store contents one `SwarmManager` call works on: the execution row,
its `swarm_tasks` rows (in `sequence_order` order, as every query returns
them), the child `tasks` rows, and the active worker profiles that
`AgentProfile::find_workers` returns (in `priority DESC, name` order). -/
structure SwarmState where
  execution : SwarmExecution
  tasks : List SwarmTask
  childTasks : List ChildTask
  workers : List AgentProfile
deriving DecidableEq, Repr

/-- Skill-match score of one worker in `SwarmManager::find_best_agent`:
`required_skills.iter().filter(|s| worker_skill_names.contains(s)).count()`. -/
def matchScore (requiredSkills : List String) (w : AgentProfile) : Nat :=
  (requiredSkills.filter fun skill => w.skills.contains skill).length

/-- The scoring loop of `find_best_agent`: starting from
`best_worker = None, best_score = 0`, a worker replaces the best only on a
strictly greater score. -/
def bestWorkerAcc (requiredSkills : List String)
    (acc : Option AgentProfile × Nat) (w : AgentProfile) : Option AgentProfile × Nat :=
  let score := matchScore requiredSkills w
  if score > acc.2 then (some w, score) else acc

/-- `SwarmManager::find_best_agent`. -/
def findBestAgent (workers : List AgentProfile) (requiredSkills : List String) :
    Except SwarmError AgentProfile :=
  match workers with
  | [] => Except.error SwarmError.NoAvailableWorkers
  | w :: ws =>
    if requiredSkills = [] then Except.ok w
    else
      match ((w :: ws).foldl (bestWorkerAcc requiredSkills) (none, 0)).1 with
      | some u => Except.ok u
      | none => Except.error SwarmError.NoAvailableWorkers

/-- Rust `i32 as usize` (sign extension reinterpreted as an unsigned
64-bit value), used on `max_parallel_workers` in `execute_ready_tasks`. -/
def i32AsUsize (x : Int) : Nat :=
  if x < 0 then (x + 2 ^ 64).toNat else x.toNat

/-- `SwarmManager::start_task`.  `wsNew` models `Workspace::create` — for a
given swarm-task id it returns the id of the workspace row the store mints,
or `none` for a database failure.  Mirrors the source order: pick an agent
(an error here leaves the row untouched), persist the assignment, build the
branch name, look up the child task, create the workspace, persist workspace
and `'running'` status, mark the child task in progress, emit `TaskStarted`. -/
def startTask (cfg : SwarmManagerConfig) (wsNew : Nat → Option Nat) (now : Nat)
    (s : SwarmState) (t : SwarmTask) : SwarmState × List SwarmEvent × Option SwarmError :=
  match findBestAgent s.workers t.requiredSkills with
  | Except.error e => (s, [], some e)
  | Except.ok agent =>
    let tasks1 := updateTask s.tasks t.id (SwarmTask.assignAgentRow agent.id)
    let branchName := cfg.branchPfx ++ "/task-" ++ toString t.id
    match (s.childTasks.find? fun c => c.id == t.taskId) with
    | none => ({ s with tasks := tasks1 }, [], some (SwarmError.TaskNotFound t.taskId))
    | some childTask =>
      match wsNew t.id with
      | none =>
          ({ s with tasks := tasks1 }, [], some (SwarmError.Database ("workspace")))
      | some workspaceId =>
        let tasks2 := updateTask tasks1 t.id
          (SwarmTask.setWorkspaceRow workspaceId branchName)
        let tasks3 := updateTask tasks2 t.id (SwarmTask.startRow now)
        let childTasks1 := updateChildTask s.childTasks childTask.id TaskStatus.InProgress
        ({ s with tasks := tasks3, childTasks := childTasks1 },
          [SwarmEvent.TaskStarted t.id agent.id], none)

/-- One iteration of the dispatch loop in `execute_ready_tasks`: run
`start_task`; a success appends the id to `started_task_ids`, a failure is
logged and the tick continues. -/
def tickStep (cfg : SwarmManagerConfig) (wsNew : Nat → Option Nat) (now : Nat)
    (acc : SwarmState × List SwarmEvent × List Nat) (t : SwarmTask) :
    SwarmState × List SwarmEvent × List Nat :=
  let (s, events, started) := acc
  match startTask cfg wsNew now s t with
  | (s1, evs, none) => (s1, events ++ evs, started ++ [t.id])
  | (s1, evs, some _) => (s1, events ++ evs, started)

/-- `SwarmManager::execute_ready_tasks`: refuse unless the execution is
`Executing`; compute free capacity with `saturating_sub` (returning early on
zero, before the all-completed check); start up to that many ready tasks;
finally, if every task is completed or skipped, move the execution to
`Reviewing` and emit `ConsensusRequired`. -/
def executeReadyTasks (cfg : SwarmManagerConfig) (wsNew : Nat → Option Nat)
    (now : Nat) (s : SwarmState) :
    SwarmState × List SwarmEvent × Except SwarmError (List Nat) :=
  if s.execution.status ≠ SwarmExecutionStatus.Executing then
    (s, [], Except.error
      (SwarmError.InvalidStateTransition ("Execution is not in executing state")))
  else
    let running := findRunningTasks s.tasks
    let availableSlots := i32AsUsize s.execution.maxParallelWorkers - running.length
    if availableSlots = 0 then (s, [], Except.ok [])
    else
      let readyTasks := findReadyTasks s.tasks
      let tasksToStart := readyTasks.take availableSlots
      let (s1, events, startedIds) :=
        tasksToStart.foldl (tickStep cfg wsNew now) (s, [], [])
      if allCompleted s1.tasks then
        ({ s1 with execution := s1.execution.updateStatus SwarmExecutionStatus.Reviewing now },
          events ++ [SwarmEvent.ConsensusRequired s1.execution.id],
          Except.ok startedIds)
      else (s1, events, Except.ok startedIds)

/-- `SwarmManager::skip_dependent_tasks`, fuelled.  Each call re-reads the
task table (`find_by_swarm_execution`) as a snapshot and iterates over it
while the recursive calls keep mutating the table: the fold runs over the
snapshot `db` taken at entry while the accumulator carries the live table.
A task whose (snapshot) status is `Pending` and whose dependencies contain
the failed task is skipped in the live table and then recursed into. -/
def skipDependentTasksFuel : Nat → List SwarmTask → Nat → List SwarmTask
  | 0, db, _ => db
  | Nat.succ fuel, db, failedTaskId =>
      db.foldl
        (fun acc t =>
          if failedTaskId ∈ t.dependsOn ∧ t.status = SwarmTaskStatus.Pending then
            skipDependentTasksFuel fuel
              (updateTask acc t.id SwarmTask.skipRow) t.id
          else acc)
        db

/-- `SwarmManager::skip_dependent_tasks` with enough fuel to run to
completion (`pendingCount + 1` suffices; see the fuel-stabilisation
theorems). -/
def skipDependentTasks (tasks : List SwarmTask) (failedTaskId : Nat) : List SwarmTask :=
  skipDependentTasksFuel (pendingCount tasks + 1) tasks failedTaskId

/-- `SwarmManager::complete_task`: mark the row completed, mark the child
task done, emit `TaskCompleted` and a fresh `ExecutionProgress`, then run
another scheduling tick (whose error, if any, is propagated while the
already-persisted writes and already-sent events stand). -/
def completeTask (cfg : SwarmManagerConfig) (wsNew : Nat → Option Nat) (now : Nat)
    (s : SwarmState) (swarmTaskId : Nat) :
    SwarmState × List SwarmEvent × Except SwarmError Unit :=
  match lookupTask s.tasks swarmTaskId with
  | none => (s, [], Except.error (SwarmError.TaskNotFound swarmTaskId))
  | some swarmTask =>
    let tasks1 := updateTask s.tasks swarmTaskId (SwarmTask.completeRow now)
    let childTasks1 := updateChildTask s.childTasks swarmTask.taskId TaskStatus.Done
    let s1 : SwarmState := { s with tasks := tasks1, childTasks := childTasks1 }
    let events := [SwarmEvent.TaskCompleted swarmTaskId,
      SwarmEvent.ExecutionProgress (getProgress tasks1)]
    match executeReadyTasks cfg wsNew now s1 with
    | (s2, tickEvents, Except.ok _) => (s2, events ++ tickEvents, Except.ok ())
    | (s2, tickEvents, Except.error e) => (s2, events ++ tickEvents, Except.error e)

/-- `SwarmManager::fail_task`: retry when `retry_count < max_retries`
(returning `true` with no event); otherwise record the permanent failure,
cancel the child task, emit `TaskFailed`, cascade skips, and fail the whole
execution (error message, `ExecutionFailed` event) when the failed count
exceeds half the total. -/
def failTask (now : Nat) (s : SwarmState)
    (swarmTaskId : Nat) (error : String) :
    SwarmState × List SwarmEvent × Except SwarmError Bool :=
  match lookupTask s.tasks swarmTaskId with
  | none => (s, [], Except.error (SwarmError.TaskNotFound swarmTaskId))
  | some swarmTask =>
    if swarmTask.retryCount ≥ swarmTask.maxRetries then
      let tasks1 := updateTask s.tasks swarmTaskId (SwarmTask.failRow error now)
      let childTasks1 := updateChildTask s.childTasks swarmTask.taskId TaskStatus.Cancelled
      let events1 := [SwarmEvent.TaskFailed swarmTaskId error]
      let tasks2 := skipDependentTasks tasks1 swarmTaskId
      let progress := getProgress tasks2
      if progress.failed > progress.total / 2 then
        ({ s with execution := s.execution.setError ("Too many tasks failed") now
                  tasks := tasks2
                  childTasks := childTasks1 },
          events1 ++ [SwarmEvent.ExecutionFailed s.execution.id ("Too many tasks failed")],
          Except.ok false)
      else
        ({ s with tasks := tasks2, childTasks := childTasks1 }, events1, Except.ok false)
    else
      ({ s with tasks := updateTask s.tasks swarmTaskId SwarmTask.retryRow },
        [], Except.ok true)

/-- The `consensus_reviews` row (`db/src/models/consensus_review.rs`), with
the fields the consensus engine reads.  A state's review list is kept in the
`ORDER BY round, created_at` order in which
`ConsensusReview::find_by_swarm_execution` returns it. -/
structure ConsensusReview where
  id : Nat
  reviewerProfileId : Nat
  vote : ConsensusVote
  comments : Option String
  confidence : Option Int
  round : Int
deriving DecidableEq, Repr

/-- `ConsensusSummary` (`db/src/models/consensus_review.rs`). -/
structure ConsensusSummary where
  totalReviewers : Int
  votesCast : Int
  approvals : Int
  rejections : Int
  abstentions : Int
  pending : Int
  threshold : Int
  hasConsensus : Bool
  consensusFailed : Bool
deriving DecidableEq, Repr

/-- Count of reviews (over every round of the execution) satisfying a vote
predicate, as the aggregate query of `get_consensus_summary` computes it. -/
def voteCount (reviews : List ConsensusReview) (p : ConsensusVote → Bool) : Int :=
  ((reviews.filter fun r => p r.vote).length : Nat)

/-- `ConsensusReview::get_consensus_summary`: aggregates over every review
row of the execution (all rounds); `total` is the row count, and
`consensus_failed` compares the rejections against `total - threshold`. -/
def getConsensusSummary (reviews : List ConsensusReview) (threshold : Int) :
    ConsensusSummary :=
  let total : Int := (reviews.length : Nat)
  let approvals := voteCount reviews fun v => v == ConsensusVote.Approve
  let rejections := voteCount reviews fun v => v == ConsensusVote.Reject
  { totalReviewers := total
    votesCast := voteCount reviews fun v => v != ConsensusVote.Pending
    approvals := approvals
    rejections := rejections
    abstentions := voteCount reviews fun v => v == ConsensusVote.Abstain
    pending := voteCount reviews fun v => v == ConsensusVote.Pending
    threshold := threshold
    hasConsensus := approvals ≥ threshold
    consensusFailed := rejections > total - threshold }

/-- `ConsensusReview::get_latest_round`: `COALESCE(MAX(round), 0)`. -/
def getLatestRound (reviews : List ConsensusReview) : Int :=
  reviews.foldl (fun acc r => max acc r.round) 0

/-- `ConsensusError` (`services/src/services/swarm/consensus.rs`). -/
inductive ConsensusError where
  | Database (message : String)
  | ExecutionNotFound (id : Nat)
  | ReviewNotFound (id : Nat)
  | NotInReviewPhase
  | NoReviewersAvailable
  | ConsensusNotReached
  | ReviewAlreadySubmitted
deriving DecidableEq, Repr

/-- `ConsensusResult` (`services/src/services/swarm/consensus.rs`). -/
inductive ConsensusResult where
  | Approved
  | Rejected (reasons : List String)
  | Pending (summary : ConsensusSummary)
  | Deadlock (summary : ConsensusSummary)
deriving DecidableEq, Repr

/-- `ConsensusConfig` (`services/src/services/swarm/consensus.rs`). -/
structure ConsensusConfig where
  minReviewers : Int
  maxRounds : Int
  reviewTimeoutSeconds : Int
deriving DecidableEq, Repr

/-- The rejection reasons gathered by `evaluate_consensus`: the reviews in
store order, filtered to `Reject` votes, keeping the non-null comments. -/
def rejectionReasons (reviews : List ConsensusReview) : List String :=
  (reviews.filter fun r => r.vote == ConsensusVote.Reject).filterMap fun r => r.comments

/-- `ConsensusService::evaluate_consensus` for an execution with review rows
`reviews`: approval consensus first, then failure, then a deadlock check
(all votes in, neither threshold, `round ≥ max_rounds`), else pending. -/
def evaluateConsensus (cfg : ConsensusConfig) (e : SwarmExecution)
    (reviews : List ConsensusReview) : ConsensusResult :=
  let summary := getConsensusSummary reviews e.consensusThreshold
  if summary.hasConsensus then ConsensusResult.Approved
  else if summary.consensusFailed then ConsensusResult.Rejected (rejectionReasons reviews)
  else if summary.pending = 0 ∧ getLatestRound reviews ≥ cfg.maxRounds then
    ConsensusResult.Deadlock summary
  else ConsensusResult.Pending summary

/-- `ConsensusService::finalize_consensus`: evaluate, then apply the decision
to the execution row — `Approved → Merging`, `Rejected → Failed`,
`Deadlock → SwarmExecution::set_error(...)` (the in-code comment reads
"keep in reviewing state but mark with error message"), `Pending → no-op`. -/
def finalizeConsensus (cfg : ConsensusConfig) (now : Nat) (e : SwarmExecution)
    (reviews : List ConsensusReview) : SwarmExecution × ConsensusResult :=
  let result := evaluateConsensus cfg e reviews
  match result with
  | ConsensusResult.Approved =>
      (e.updateStatus SwarmExecutionStatus.Merging now, result)
  | ConsensusResult.Rejected _ =>
      (e.updateStatus SwarmExecutionStatus.Failed now, result)
  | ConsensusResult.Deadlock _ =>
      (e.setError ("Consensus deadlock - human intervention required") now, result)
  | ConsensusResult.Pending _ => (e, result)

/-- Fixture: an execution in review with `N = 3` reviewers and threshold
`T = 1` (the value `SwarmExecution::create` stores for `N = 3`). -/
def deadlockExecution : SwarmExecution :=
  { id := 10, epicTaskId := 1, status := SwarmExecutionStatus.Reviewing
    plannerOutput := none, reviewerCount := 3, consensusThreshold := 1
    consensusApprovals := 0, consensusRejections := 0, maxParallelWorkers := 3
    errorMessage := none, completedAt := none }

/-- Fixture: one review round in which all three reviewers abstained. -/
def deadlockReviews : List ConsensusReview :=
  [ { id := 1, reviewerProfileId := 1, vote := ConsensusVote.Abstain
      comments := none, confidence := none, round := 1 },
    { id := 2, reviewerProfileId := 2, vote := ConsensusVote.Abstain
      comments := none, confidence := none, round := 1 },
    { id := 3, reviewerProfileId := 3, vote := ConsensusVote.Abstain
      comments := none, confidence := none, round := 1 } ]

/-- Fixture: an execution created with `reviewer_count = 4` (threshold `3`),
whose review round got only three rows because only three reviewer profiles
were active (`start_review` creates `min(N, |pool|)` rows). -/
def shortPoolExecution : SwarmExecution :=
  { id := 20, epicTaskId := 2, status := SwarmExecutionStatus.Reviewing
    plannerOutput := none, reviewerCount := 4, consensusThreshold := 3
    consensusApprovals := 2, consensusRejections := 1, maxParallelWorkers := 3
    errorMessage := none, completedAt := none }

/-- Fixture: the three review rows of `shortPoolExecution`: two approvals and
one rejection with a comment. -/
def shortPoolReviews : List ConsensusReview :=
  [ { id := 1, reviewerProfileId := 1, vote := ConsensusVote.Approve
      comments := none, confidence := none, round := 1 },
    { id := 2, reviewerProfileId := 2, vote := ConsensusVote.Approve
      comments := none, confidence := none, round := 1 },
    { id := 3, reviewerProfileId := 3, vote := ConsensusVote.Reject
      comments := some ("regression in parser"), confidence := none, round := 1 } ]

/-- Fixture: an executing swarm whose single task is running with a
workspace and branch attached, and with a retry budget left
(`retry_count = 0 < max_retries = 2`). -/
def retryFixtureState : SwarmState :=
  { execution :=
      { id := 30, epicTaskId := 3, status := SwarmExecutionStatus.Executing
        plannerOutput := none, reviewerCount := 3, consensusThreshold := 1
        consensusApprovals := 0, consensusRejections := 0, maxParallelWorkers := 3
        errorMessage := none, completedAt := none }
    tasks :=
      [ { id := 1, taskId := 11, workspaceId := some 7, sequenceOrder := 0
          dependsOn := [], requiredSkills := [], assignedAgentProfileId := some 5
          status := SwarmTaskStatus.Running, branchName := some ("swarm/task-1")
          complexity := 3, durationSeconds := none, errorMessage := none
          retryCount := 0, maxRetries := 2, startedAt := some 3
          completedAt := none } ]
    childTasks := [ { id := 11, status := TaskStatus.InProgress } ]
    workers := [] }

/-- Helper to build a plain swarm task fixture row. -/
def mkTask (id taskId : Nat) (status : SwarmTaskStatus) (dependsOn : List Nat)
    (maxRetries : Int) : SwarmTask :=
  { id := id, taskId := taskId, workspaceId := none, sequenceOrder := (id : Int)
    dependsOn := dependsOn, requiredSkills := [], assignedAgentProfileId := none
    status := status, branchName := none, complexity := 3, durationSeconds := none
    errorMessage := none, retryCount := 0, maxRetries := maxRetries
    startedAt := none, completedAt := none }

/-- Helper to build an executing execution fixture row. -/
def mkExecutingExecution (id : Nat) (maxParallelWorkers : Int) : SwarmExecution :=
  { id := id, epicTaskId := id, status := SwarmExecutionStatus.Executing
    plannerOutput := none, reviewerCount := 3, consensusThreshold := 1
    consensusApprovals := 0, consensusRejections := 0
    maxParallelWorkers := maxParallelWorkers
    errorMessage := none, completedAt := none }

/-- Fixture: five independent subtasks, two already permanently failed, two
completed; failing the running task 3 (no retries left) makes 3 of 5 failed. -/
def majorityFailState : SwarmState :=
  { execution := mkExecutingExecution 40 3
    tasks :=
      [ mkTask 1 11 SwarmTaskStatus.Failed [] 0,
        mkTask 2 12 SwarmTaskStatus.Failed [] 0,
        mkTask 3 13 SwarmTaskStatus.Running [] 0,
        mkTask 4 14 SwarmTaskStatus.Completed [] 0,
        mkTask 5 15 SwarmTaskStatus.Completed [] 0 ]
    childTasks :=
      [ { id := 11, status := TaskStatus.Cancelled },
        { id := 12, status := TaskStatus.Cancelled },
        { id := 13, status := TaskStatus.InProgress },
        { id := 14, status := TaskStatus.Done },
        { id := 15, status := TaskStatus.Done } ]
    workers := [] }

/-- Fixture: four independent subtasks of which only task 3 fails (1 of 4). -/
def minorityFailState : SwarmState :=
  { execution := mkExecutingExecution 41 3
    tasks :=
      [ mkTask 1 11 SwarmTaskStatus.Completed [] 0,
        mkTask 2 12 SwarmTaskStatus.Completed [] 0,
        mkTask 3 13 SwarmTaskStatus.Running [] 0,
        mkTask 4 14 SwarmTaskStatus.Pending [] 0 ]
    childTasks :=
      [ { id := 11, status := TaskStatus.Done },
        { id := 12, status := TaskStatus.Done },
        { id := 13, status := TaskStatus.InProgress },
        { id := 14, status := TaskStatus.Todo } ]
    workers := [] }

/-- Default manager configuration as far as it is modelled
(`branch_prefix = "swarm"`). -/
def swarmCfg : SwarmManagerConfig := { branchPfx := "swarm" }

/-- A workspace provider that always fails (irrelevant for scenarios in
which no task gets started). -/
def wsNone : Nat → Option Nat := fun _ => none

/-- Fixture for the completion-replay scenario: the single subtask finished
at instant 10 and the execution has already advanced to `Reviewing`. -/
def replayState : SwarmState :=
  { execution :=
      { id := 50, epicTaskId := 5, status := SwarmExecutionStatus.Reviewing
        plannerOutput := none, reviewerCount := 3, consensusThreshold := 1
        consensusApprovals := 0, consensusRejections := 0, maxParallelWorkers := 3
        errorMessage := none, completedAt := none }
    tasks :=
      [ { id := 1, taskId := 11, workspaceId := some 7, sequenceOrder := 0
          dependsOn := [], requiredSkills := [], assignedAgentProfileId := some 5
          status := SwarmTaskStatus.Completed, branchName := some ("swarm/task-1")
          complexity := 3, durationSeconds := some 7, errorMessage := none
          retryCount := 0, maxRetries := 2, startedAt := some 3
          completedAt := some 10 } ]
    childTasks := [ { id := 11, status := TaskStatus.Done } ]
    workers := [] }

/-- Fixture for the diamond scenario `s0 -> {s1, s2} -> s3` (ids 1-4) right
after `s0` completed and `s1`, `s2` started: `s1`/`s2` are running with
`max_retries = 0` and `s3` waits on both. -/
def diamondState : SwarmState :=
  { execution := mkExecutingExecution 60 3
    tasks :=
      [ mkTask 1 11 SwarmTaskStatus.Completed [] 0,
        mkTask 2 12 SwarmTaskStatus.Running [1] 0,
        mkTask 3 13 SwarmTaskStatus.Running [1] 0,
        mkTask 4 14 SwarmTaskStatus.Pending [2, 3] 0 ]
    childTasks :=
      [ { id := 11, status := TaskStatus.Done },
        { id := 12, status := TaskStatus.InProgress },
        { id := 13, status := TaskStatus.InProgress },
        { id := 14, status := TaskStatus.Todo } ]
    workers := [] }

/-- A workspace provider that always succeeds, minting workspace `100 + id`
for task `id`. -/
def wsSome : Nat → Option Nat := fun id => some (100 + id)

/-- Fixture: fan-out of four independent pending subtasks under capacity
`max_parallel_workers = 2`, with one skill-less worker available. -/
def fanOutState : SwarmState :=
  { execution := mkExecutingExecution 70 2
    tasks :=
      [ mkTask 1 11 SwarmTaskStatus.Pending [] 2,
        mkTask 2 12 SwarmTaskStatus.Pending [] 2,
        mkTask 3 13 SwarmTaskStatus.Pending [] 2,
        mkTask 4 14 SwarmTaskStatus.Pending [] 2 ]
    childTasks :=
      [ { id := 11, status := TaskStatus.Todo },
        { id := 12, status := TaskStatus.Todo },
        { id := 13, status := TaskStatus.Todo },
        { id := 14, status := TaskStatus.Todo } ]
    workers := [ { id := 9, priority := 1, skills := [] } ] }

/-- Row-wise over-approximation of what `skip_dependent_tasks` can do to the
task table: each row is either untouched or has had its status overwritten
with `'skipped'`. -/
def SkippedFrom (db' db : List SwarmTask) : Prop :=
  List.Forall₂ (fun t' t => t' = t ∨ t' = { t with status := SwarmTaskStatus.Skipped }) db' db

/-- Fixture: a corrupted dependency graph containing a two-cycle (tasks 2 and
3 depend on each other) and a self-referencing task 4, all pending, hanging
off the failed running task 1. -/
def cyclicTasks : List SwarmTask :=
  [ mkTask 1 11 SwarmTaskStatus.Running [] 0,
    mkTask 2 12 SwarmTaskStatus.Pending [1, 3] 0,
    mkTask 3 13 SwarmTaskStatus.Pending [2] 0,
    mkTask 4 14 SwarmTaskStatus.Pending [4, 1] 0 ]

end VibeSwarm

namespace VibeSwarm

theorem bestWorkerAcc_some (req : List String) (l : List AgentProfile)
    (x : AgentProfile) (b : Nat) :
    (l.foldl (bestWorkerAcc req) (some x, b)).1 ≠ none := by
  induction l generalizing x b with
  | nil => simp
  | cons w rest ih =>
      simp only [List.foldl_cons, bestWorkerAcc]
      by_cases h : matchScore req w > b
      · simp only [if_pos h]
        exact ih w (matchScore req w)
      · simp only [if_neg h]
        exact ih x b

theorem bestWorkerAcc_none_iff (req : List String) (l : List AgentProfile) (b : Nat) :
    (l.foldl (bestWorkerAcc req) (none, b)).1 = none ↔
      ∀ w ∈ l, matchScore req w ≤ b := by
  induction l generalizing b with
  | nil => simp
  | cons w rest ih =>
      simp only [List.foldl_cons, bestWorkerAcc]
      by_cases h : matchScore req w > b
      · simp only [if_pos h]
        constructor
        · intro hc
          exact absurd hc (bestWorkerAcc_some req rest w (matchScore req w))
        · intro hall
          exact absurd (hall w (by simp)) (by omega)
      · simp only [if_neg h]
        rw [ih b]
        constructor
        · intro hall
          intro u hu
          rcases List.mem_cons.mp hu with hu | hu
          · subst hu; omega
          · exact hall u hu
        · intro hall u hu
          exact hall u (List.mem_cons_of_mem _ hu)

end VibeSwarm

namespace VibeSwarm

/-- C1: for reviewer count `N ≥ 1` the stored threshold is
`2*floor((N-1)/3) + 1`, and no post-creation update of an execution row
changes `consensus_threshold`. -/
theorem create_consensus_threshold_fixed (id : Nat) (data : CreateSwarmExecution)
    (N : Int) (hN : data.reviewerCount = some N) (h1 : 1 ≤ N) :
    (SwarmExecution.create id data).consensusThreshold = 2 * Int.fdiv (N - 1) 3 + 1 ∧
      ∀ (e : SwarmExecution) (u : ExecutionUpdate),
        (e.applyUpdate u).consensusThreshold = e.consensusThreshold := by
  constructor
  · have h0 : 0 ≤ N - 1 := by omega
    have htd : Int.tdiv (N - 1) 3 = Int.fdiv (N - 1) 3 := by
      rw [Int.tdiv_eq_ediv h0 (by omega), Int.fdiv_eq_ediv _ (by omega)]
    simp [SwarmExecution.create, hN, htd]
  · intro e u
    cases u with
    | updateStatus st now =>
        cases st <;> simp [SwarmExecution.applyUpdate, SwarmExecution.updateStatus]
    | setPlannerOutput o => simp [SwarmExecution.applyUpdate]
    | setError err now => simp [SwarmExecution.applyUpdate, SwarmExecution.setError]
    | incrementApproval => simp [SwarmExecution.applyUpdate]
    | incrementRejection => simp [SwarmExecution.applyUpdate]

/-- Witness for C1 at `N = 4`: the stored threshold is `3 = 2*⌊3/3⌋+1`. -/
theorem create_consensus_threshold_fixed_witness :
    (SwarmExecution.create 0
        { epicTaskId := 0, reviewerCount := some 4, maxParallelWorkers := none
        }).consensusThreshold = 2 * Int.fdiv (4 - 1) 3 + 1 ∧
      ∀ (e : SwarmExecution) (u : ExecutionUpdate),
        (e.applyUpdate u).consensusThreshold = e.consensusThreshold :=
  create_consensus_threshold_fixed 0
    { epicTaskId := 0, reviewerCount := some 4, maxParallelWorkers := none }
    4 rfl (by decide)

end VibeSwarm

namespace VibeSwarm

/-- C7 (amended): `find_best_agent` returns a worker iff the pool is
non-empty and either no skills are required or some worker matches at least
one required skill; every failure is `NoAvailableWorkers`.  In particular,
with required skills that no worker matches (best score zero) it fails even
though the pool is non-empty. -/
theorem find_best_agent_ok_iff (workers : List AgentProfile) (req : List String) :
    ((∃ w, findBestAgent workers req = Except.ok w) ↔
      workers ≠ [] ∧ (req = [] ∨ ∃ w ∈ workers, 0 < matchScore req w)) ∧
    ∀ e, findBestAgent workers req = Except.error e →
      e = SwarmError.NoAvailableWorkers := by
  cases workers with
  | nil => simp [findBestAgent]
  | cons w ws =>
    by_cases hreq : req = []
    · constructor
      · constructor
        · intro _; exact ⟨by simp, Or.inl hreq⟩
        · intro _; exact ⟨w, by simp [findBestAgent, hreq]⟩
      · intro e he
        simp [findBestAgent, hreq] at he
    · have hmain :
          ((w :: ws).foldl (bestWorkerAcc req) (none, 0)).1 = none ↔
            ∀ u ∈ w :: ws, matchScore req u ≤ 0 := bestWorkerAcc_none_iff req (w :: ws) 0
      have hform : findBestAgent (w :: ws) req =
          match ((w :: ws).foldl (bestWorkerAcc req) (none, 0)).1 with
          | some u => Except.ok u
          | none => Except.error SwarmError.NoAvailableWorkers := by
        simp [findBestAgent, hreq]
      rcases hopt : ((w :: ws).foldl (bestWorkerAcc req) (none, 0)).1 with _ | v
      · rw [hopt] at hform
        constructor
        · constructor
          · intro ⟨u, hu⟩
            rw [hform] at hu
            exact Except.noConfusion hu
          · rintro ⟨-, h | ⟨u, hu, hupos⟩⟩
            · exact absurd h hreq
            · have := hmain.mp hopt u hu
              omega
        · intro e he
          rw [hform] at he
          exact (Except.error.inj he).symm
      · rw [hopt] at hform
        constructor
        · constructor
          · intro _
            refine ⟨by simp, Or.inr ?_⟩
            by_contra hnone
            push_neg at hnone
            have hall : ∀ u ∈ w :: ws, matchScore req u ≤ 0 := by
              intro v hv
              exact Nat.le_of_lt_succ (Nat.lt_succ_of_le (hnone v hv))
            rw [hmain.mpr hall] at hopt
            exact Option.noConfusion hopt
          · intro _
            exact ⟨v, hform⟩
        · intro e he
          rw [hform] at he
          exact Except.noConfusion he

/-- Counterexample for C7: a non-empty pool whose only worker matches none of
the required skills makes `find_best_agent` fail with `NoAvailableWorkers`,
instead of returning that worker as the claim states. -/
theorem find_best_agent_zero_score_counterexample :
    findBestAgent [{ id := 1, priority := 0, skills := [] }] ["rust"] =
        Except.error SwarmError.NoAvailableWorkers ∧
      ([{ id := 1, priority := 0, skills := [] }] : List AgentProfile) ≠ [] := by
  exact ⟨rfl, by simp⟩

end VibeSwarm

namespace VibeSwarm

/-- C5 (code evaluated at the failing input): with three abstentions, all
votes in and `round = max_rounds = 1`, `finalize_consensus` returns
`Deadlock` and writes the deadlock error message — but, through
`SwarmExecution::set_error`, it also rewrites the execution status to
`Failed`, contradicting the in-code comment "keep in reviewing state" and
the claim that the status remains `Reviewing`. -/
theorem finalize_deadlock_sets_status_failed :
    (finalizeConsensus { minReviewers := 3, maxRounds := 1, reviewTimeoutSeconds := 1800 }
        100 deadlockExecution deadlockReviews).2 =
      ConsensusResult.Deadlock (getConsensusSummary deadlockReviews 1) ∧
    (finalizeConsensus { minReviewers := 3, maxRounds := 1, reviewTimeoutSeconds := 1800 }
        100 deadlockExecution deadlockReviews).1.errorMessage =
      some ("Consensus deadlock - human intervention required") ∧
    (finalizeConsensus { minReviewers := 3, maxRounds := 1, reviewTimeoutSeconds := 1800 }
        100 deadlockExecution deadlockReviews).1.status =
      SwarmExecutionStatus.Failed := by
  exact ⟨rfl, rfl, rfl⟩

/-- Counterexample for C8: an execution created with `reviewer_count N = 4`
(threshold `T = 3`) whose round has only three review rows.  One rejection
makes `evaluate_consensus` return `Rejected` (because the summary compares
against the row count: `1 > 3 - 3`), although `rejections > N - T` is false
(`1 > 4 - 3` fails), refuting the claim that `N` is the reviewer count. -/
theorem evaluate_consensus_reviewer_count_counterexample :
    evaluateConsensus { minReviewers := 3, maxRounds := 3, reviewTimeoutSeconds := 1800 }
        shortPoolExecution shortPoolReviews =
      ConsensusResult.Rejected [("regression in parser")] ∧
    ¬(voteCount shortPoolReviews (fun v => v == ConsensusVote.Reject) >
        shortPoolExecution.reviewerCount - shortPoolExecution.consensusThreshold) := by
  exact ⟨rfl, by decide⟩

/-- C8 (amended): `evaluate_consensus` returns `Rejected` exactly when the
approvals have not reached the threshold and the number of `Reject` votes
exceeds `R - T`, where `R` is the number of review rows of the execution
(not the execution's `reviewer_count`); the reasons are then the non-null
comments of the `Reject`-voted reviews in the store's
`(round, created_at)` return order. -/
theorem evaluate_consensus_rejected_iff (cfg : ConsensusConfig) (e : SwarmExecution)
    (reviews : List ConsensusReview) :
    ((∃ rs, evaluateConsensus cfg e reviews = ConsensusResult.Rejected rs) ↔
      (voteCount reviews (fun v => v == ConsensusVote.Approve) < e.consensusThreshold ∧
        voteCount reviews (fun v => v == ConsensusVote.Reject) >
          (reviews.length : Int) - e.consensusThreshold)) ∧
    ((voteCount reviews (fun v => v == ConsensusVote.Approve) < e.consensusThreshold ∧
        voteCount reviews (fun v => v == ConsensusVote.Reject) >
          (reviews.length : Int) - e.consensusThreshold) →
      evaluateConsensus cfg e reviews =
        ConsensusResult.Rejected (rejectionReasons reviews)) := by
  by_cases happ :
      voteCount reviews (fun v => v == ConsensusVote.Approve) ≥ e.consensusThreshold
  · have h1 : evaluateConsensus cfg e reviews = ConsensusResult.Approved := by
      simp [evaluateConsensus, getConsensusSummary, happ]
    constructor
    · simp only [h1]
      constructor
      · intro ⟨rs, hrs⟩
        exact ConsensusResult.noConfusion hrs
      · intro ⟨hlt, _⟩
        omega
    · intro ⟨hlt, _⟩
      omega
  · push_neg at happ
    by_cases hrej :
        voteCount reviews (fun v => v == ConsensusVote.Reject) >
          (reviews.length : Int) - e.consensusThreshold
    · have h1 : evaluateConsensus cfg e reviews =
          ConsensusResult.Rejected (rejectionReasons reviews) := by
        simp [evaluateConsensus, getConsensusSummary, hrej]
        omega
      refine ⟨?_, fun _ => h1⟩
      simp only [h1]
      constructor
      · intro _; exact ⟨happ, hrej⟩
      · intro _; exact ⟨rejectionReasons reviews, rfl⟩
    · have h1 : ∀ rs, evaluateConsensus cfg e reviews ≠ ConsensusResult.Rejected rs := by
        intro rs
        simp only [evaluateConsensus, getConsensusSummary]
        split_ifs with hc1 hc2 hc3
        · exact fun h => ConsensusResult.noConfusion h
        · exfalso
          simp only [decide_eq_true_eq] at hc2
          omega
        · exact fun h => ConsensusResult.noConfusion h
        · exact fun h => ConsensusResult.noConfusion h
      constructor
      · constructor
        · intro ⟨rs, hrs⟩
          exact absurd hrs (h1 rs)
        · intro ⟨_, hr⟩
          exact absurd hr hrej
      · intro ⟨_, hr⟩
        exact absurd hr hrej

end VibeSwarm

namespace VibeSwarm

theorem lookupTask_updateTask (tasks : List SwarmTask) (id : Nat)
    (f : SwarmTask → SwarmTask) (hf : ∀ t, (f t).id = t.id) :
    lookupTask (updateTask tasks id f) id = (lookupTask tasks id).map f := by
  induction tasks with
  | nil => rfl
  | cons t rest ih =>
      by_cases h : t.id = id
      · simp [updateTask, lookupTask, List.find?_cons, h, hf t]
      · simp only [updateTask, lookupTask, List.map_cons, List.find?_cons]
        have hp1 : ((if t.id = id then f t else t).id == id) = false := by
          simp [h]
        have hp2 : (t.id == id) = false := by simp [h]
        rw [hp1, hp2]
        simpa [lookupTask, updateTask] using ih

/-- Counterexample for C6: a failure with retry budget left is retried
(`Ok(true)`, status reset), but the UPDATE of `SwarmTask::retry` leaves
`workspace_id = 7` and `branch_name = "swarm/task-1"` in place instead of
nulling the workspace fields as the claim states. -/
theorem fail_task_retry_keeps_workspace_counterexample :
    (failTask 5 retryFixtureState 1 ("boom")).2.2 = Except.ok true ∧
    ((failTask 5 retryFixtureState 1 ("boom")).1.tasks.map fun t => t.workspaceId) =
      [some 7] ∧
    ((failTask 5 retryFixtureState 1 ("boom")).1.tasks.map fun t => t.branchName) =
      [some ("swarm/task-1")] ∧
    ((failTask 5 retryFixtureState 1 ("boom")).1.tasks.map fun t => t.status) =
      [SwarmTaskStatus.Pending] := by
  exact ⟨rfl, rfl, rfl, rfl⟩

/-- C6 (amended): a failure reported while `retry_count < max_retries`
resets the task to `Pending`, increments `retry_count`, nulls
`error_message`, `started_at` and `completed_at`, emits nothing (in
particular no `TaskFailed`) and returns the retried outcome `Ok(true)` —
while `workspace_id` and `branch_name` are left unchanged. -/
theorem fail_task_retry_resets_to_pending (now : Nat) (s : SwarmState) (id : Nat)
    (error : String) (t : SwarmTask) (hfind : lookupTask s.tasks id = some t)
    (hretry : t.retryCount < t.maxRetries) :
    failTask now s id error =
      ({ s with tasks := updateTask s.tasks id SwarmTask.retryRow }, [], Except.ok true) ∧
    lookupTask (failTask now s id error).1.tasks id =
      some { t with status := SwarmTaskStatus.Pending
                    retryCount := t.retryCount + 1
                    errorMessage := none
                    startedAt := none
                    completedAt := none } ∧
    ((failTask now s id error).1.tasks.map fun u => u.workspaceId) =
      (s.tasks.map fun u => u.workspaceId) ∧
    ((failTask now s id error).1.tasks.map fun u => u.branchName) =
      (s.tasks.map fun u => u.branchName) := by
  have hmain : failTask now s id error =
      ({ s with tasks := updateTask s.tasks id SwarmTask.retryRow }, [], Except.ok true) := by
    simp only [failTask, hfind]
    rw [if_neg (by omega)]
  refine ⟨hmain, ?_, ?_, ?_⟩
  · rw [hmain]
    have := lookupTask_updateTask s.tasks id SwarmTask.retryRow (fun u => rfl)
    rw [this, hfind]
    rfl
  · rw [hmain]
    simp only [updateTask, List.map_map]
    apply List.map_congr_left
    intro u _
    by_cases h : u.id = id <;> simp [h, SwarmTask.retryRow]
  · rw [hmain]
    simp only [updateTask, List.map_map]
    apply List.map_congr_left
    intro u _
    by_cases h : u.id = id <;> simp [h, SwarmTask.retryRow]

/-- Witness for C6 at the concrete fixture. -/
theorem fail_task_retry_resets_to_pending_witness :
    failTask 5 retryFixtureState 1 ("boom") =
      ({ retryFixtureState with
          tasks := updateTask retryFixtureState.tasks 1 SwarmTask.retryRow },
        [], Except.ok true) ∧
    lookupTask (failTask 5 retryFixtureState 1 ("boom")).1.tasks 1 =
      some { (retryFixtureState.tasks.head (by simp [retryFixtureState])) with
              status := SwarmTaskStatus.Pending
              retryCount := 1
              errorMessage := none
              startedAt := none
              completedAt := none } := by
  have h := fail_task_retry_resets_to_pending 5 retryFixtureState 1 ("boom")
    (retryFixtureState.tasks.head (by simp [retryFixtureState])) (by rfl) (by decide)
  exact ⟨h.1, h.2.1⟩

end VibeSwarm

namespace VibeSwarm

/-- C4: after `fail_task` records a permanent failure (and cascades skips),
the execution is failed with `error_message = "Too many tasks failed"` and
`ExecutionFailed` is emitted exactly when the number of `Failed` subtasks
strictly exceeds `total / 2` (floor division); otherwise the execution row
is untouched and no `ExecutionFailed` is emitted. -/
theorem fail_task_majority_failure (now : Nat) (s : SwarmState) (id : Nat)
    (error : String) (t : SwarmTask) (hfind : lookupTask s.tasks id = some t)
    (hperm : t.retryCount ≥ t.maxRetries) :
    ((getProgress (failTask now s id error).1.tasks).failed >
        (getProgress (failTask now s id error).1.tasks).total / 2 →
      (failTask now s id error).1.execution.status = SwarmExecutionStatus.Failed ∧
      (failTask now s id error).1.execution.errorMessage =
        some ("Too many tasks failed") ∧
      SwarmEvent.ExecutionFailed s.execution.id ("Too many tasks failed") ∈
        (failTask now s id error).2.1) ∧
    (¬((getProgress (failTask now s id error).1.tasks).failed >
        (getProgress (failTask now s id error).1.tasks).total / 2) →
      (failTask now s id error).1.execution = s.execution ∧
      ∀ eid msg, SwarmEvent.ExecutionFailed eid msg ∉ (failTask now s id error).2.1) := by
  have hunfold : failTask now s id error =
      (let tasks1 := updateTask s.tasks id (SwarmTask.failRow error now)
       let childTasks1 := updateChildTask s.childTasks t.taskId TaskStatus.Cancelled
       let events1 := [SwarmEvent.TaskFailed id error]
       let tasks2 := skipDependentTasks tasks1 id
       let progress := getProgress tasks2
       if progress.failed > progress.total / 2 then
         ({ s with execution := s.execution.setError ("Too many tasks failed") now
                   tasks := tasks2
                   childTasks := childTasks1 },
           events1 ++ [SwarmEvent.ExecutionFailed s.execution.id ("Too many tasks failed")],
           Except.ok false)
       else
         ({ s with tasks := tasks2, childTasks := childTasks1 }, events1,
           Except.ok false)) := by
    simp only [failTask, hfind]
    rw [if_pos hperm]
  by_cases hcond :
      (getProgress (skipDependentTasks
          (updateTask s.tasks id (SwarmTask.failRow error now)) id)).failed >
        (getProgress (skipDependentTasks
          (updateTask s.tasks id (SwarmTask.failRow error now)) id)).total / 2
  · have hres : failTask now s id error =
        ({ s with execution := s.execution.setError ("Too many tasks failed") now
                  tasks := skipDependentTasks
                    (updateTask s.tasks id (SwarmTask.failRow error now)) id
                  childTasks := updateChildTask s.childTasks t.taskId TaskStatus.Cancelled },
          [SwarmEvent.TaskFailed id error,
            SwarmEvent.ExecutionFailed s.execution.id ("Too many tasks failed")],
          Except.ok false) := by
      rw [hunfold]
      dsimp only
      rw [if_pos hcond]
      rfl
    rw [hres]
    constructor
    · intro _
      refine ⟨rfl, rfl, ?_⟩
      simp
    · intro hn
      exact absurd hcond hn
  · have hres : failTask now s id error =
        ({ s with tasks := skipDependentTasks
                    (updateTask s.tasks id (SwarmTask.failRow error now)) id
                  childTasks := updateChildTask s.childTasks t.taskId TaskStatus.Cancelled },
          [SwarmEvent.TaskFailed id error], Except.ok false) := by
      rw [hunfold]
      dsimp only
      rw [if_neg hcond]
    rw [hres]
    constructor
    · intro hc
      exact absurd hc hcond
    · intro _
      refine ⟨rfl, ?_⟩
      intro eid msg
      simp

/-- Witness for C4: with 5 subtasks and a third permanent failure the
execution fails with the message (`3 > 5/2`), and with 4 subtasks and a
single failure it does not (`1 > 4/2` is false). -/
theorem fail_task_majority_failure_witness :
    ((failTask 9 majorityFailState 3 ("agent crashed")).1.execution.status =
        SwarmExecutionStatus.Failed ∧
      (failTask 9 majorityFailState 3 ("agent crashed")).1.execution.errorMessage =
        some ("Too many tasks failed") ∧
      SwarmEvent.ExecutionFailed 40 ("Too many tasks failed") ∈
        (failTask 9 majorityFailState 3 ("agent crashed")).2.1) ∧
    ((failTask 9 minorityFailState 3 ("agent crashed")).1.execution =
        minorityFailState.execution ∧
      ∀ eid msg, SwarmEvent.ExecutionFailed eid msg ∉
        (failTask 9 minorityFailState 3 ("agent crashed")).2.1) := by
  have h1 := fail_task_majority_failure 9 majorityFailState 3 ("agent crashed")
    (mkTask 3 13 SwarmTaskStatus.Running [] 0) (by rfl) (by decide)
  have h2 := fail_task_majority_failure 9 minorityFailState 3 ("agent crashed")
    (mkTask 3 13 SwarmTaskStatus.Running [] 0) (by rfl) (by decide)
  exact ⟨h1.1 (by decide), h2.2 (by decide)⟩

end VibeSwarm

namespace VibeSwarm

theorem executeReadyTasks_not_executing (cfg : SwarmManagerConfig)
    (wsNew : Nat → Option Nat) (now : Nat) (s : SwarmState)
    (h : s.execution.status ≠ SwarmExecutionStatus.Executing) :
    executeReadyTasks cfg wsNew now s =
      (s, [], Except.error
        (SwarmError.InvalidStateTransition ("Execution is not in executing state"))) := by
  simp only [executeReadyTasks]
  rw [if_pos h]

theorem executeReadyTasks_ok_iff (cfg : SwarmManagerConfig)
    (wsNew : Nat → Option Nat) (now : Nat) (s : SwarmState) :
    (∃ l, (executeReadyTasks cfg wsNew now s).2.2 = Except.ok l) ↔
      s.execution.status = SwarmExecutionStatus.Executing := by
  by_cases h : s.execution.status = SwarmExecutionStatus.Executing
  · simp only [h, iff_true]
    simp only [executeReadyTasks]
    rw [if_neg (by simp [h])]
    split
    · exact ⟨[], rfl⟩
    · split
      · exact ⟨_, rfl⟩
      · exact ⟨_, rfl⟩
  · rw [executeReadyTasks_not_executing cfg wsNew now s h]
    simp [h]

end VibeSwarm

namespace VibeSwarm

/-- Counterexample for C9: replaying `complete_task` on the already-completed
task of `replayState` re-emits `TaskCompleted` and `ExecutionProgress`,
rewrites `completed_at` from 10 to the new instant 20, and the call fails
with `InvalidStateTransition` (the tick refuses the `Reviewing` execution)
instead of succeeding as a no-op. -/
theorem complete_task_replay_counterexample :
    (completeTask swarmCfg wsNone 20 replayState 1).2.1 =
      [SwarmEvent.TaskCompleted 1,
        SwarmEvent.ExecutionProgress
          { total := 1, completed := 1, running := 0, failed := 0
            pending := 0, skipped := 0 }] ∧
    (completeTask swarmCfg wsNone 20 replayState 1).2.2 =
      Except.error
        (SwarmError.InvalidStateTransition ("Execution is not in executing state")) ∧
    ((completeTask swarmCfg wsNone 20 replayState 1).1.tasks.map fun t => t.completedAt) =
      [some 20] := by
  exact ⟨rfl, rfl, rfl⟩

/-- C9 (amended): `complete_task` on an already-`Completed` subtask is not a
no-op: it rewrites the completion row again, re-emits `TaskCompleted` and a
fresh `ExecutionProgress`, re-runs the scheduling tick, and succeeds iff the
execution is still `Executing` (otherwise the tick fails the call with
`InvalidStateTransition` after the events were already sent). -/
theorem complete_task_replay_not_noop (cfg : SwarmManagerConfig)
    (wsNew : Nat → Option Nat) (now : Nat) (s : SwarmState) (id : Nat)
    (t : SwarmTask) (hfind : lookupTask s.tasks id = some t)
    (_hdone : t.status = SwarmTaskStatus.Completed) :
    (completeTask cfg wsNew now s id).2.1 =
      SwarmEvent.TaskCompleted id ::
        SwarmEvent.ExecutionProgress
          (getProgress (updateTask s.tasks id (SwarmTask.completeRow now))) ::
        (executeReadyTasks cfg wsNew now
          { s with tasks := updateTask s.tasks id (SwarmTask.completeRow now)
                   childTasks := updateChildTask s.childTasks t.taskId TaskStatus.Done }).2.1 ∧
    ((∃ u, (completeTask cfg wsNew now s id).2.2 = Except.ok u) ↔
      s.execution.status = SwarmExecutionStatus.Executing) ∧
    lookupTask
        (updateTask s.tasks id (SwarmTask.completeRow now)) id =
      some { t with status := SwarmTaskStatus.Completed
                    completedAt := some now
                    durationSeconds := t.startedAt.map fun u => (now : Int) - (u : Int) } := by
  have hs1 : completeTask cfg wsNew now s id =
      (let tasks1 := updateTask s.tasks id (SwarmTask.completeRow now)
       let s1 : SwarmState := { s with tasks := tasks1
                                       childTasks := updateChildTask s.childTasks t.taskId TaskStatus.Done }
       let events := [SwarmEvent.TaskCompleted id,
         SwarmEvent.ExecutionProgress (getProgress tasks1)]
       match executeReadyTasks cfg wsNew now s1 with
       | (s2, tickEvents, Except.ok _) => (s2, events ++ tickEvents, Except.ok ())
       | (s2, tickEvents, Except.error e) => (s2, events ++ tickEvents, Except.error e)) := by
    simp only [completeTask, hfind]
  refine ⟨?_, ?_, ?_⟩
  · rw [hs1]
    dsimp only
    rcases hr : executeReadyTasks cfg wsNew now
        { s with tasks := updateTask s.tasks id (SwarmTask.completeRow now)
                 childTasks := updateChildTask s.childTasks t.taskId TaskStatus.Done } with
      ⟨s2, tickEvents, r⟩
    cases r <;> rfl
  · have hexe :
        ({ s with tasks := updateTask s.tasks id (SwarmTask.completeRow now)
                  childTasks := updateChildTask s.childTasks t.taskId
                    TaskStatus.Done } : SwarmState).execution.status =
          s.execution.status := rfl
    rw [hs1]
    dsimp only
    rcases hr : executeReadyTasks cfg wsNew now
        { s with tasks := updateTask s.tasks id (SwarmTask.completeRow now)
                 childTasks := updateChildTask s.childTasks t.taskId TaskStatus.Done } with
      ⟨s2, tickEvents, r⟩
    have hiff := executeReadyTasks_ok_iff cfg wsNew now
      { s with tasks := updateTask s.tasks id (SwarmTask.completeRow now)
               childTasks := updateChildTask s.childTasks t.taskId TaskStatus.Done }
    rw [hr, hexe] at hiff
    cases r with
    | ok u =>
        dsimp only
        rw [← hiff]
        simp
    | error e =>
        dsimp only
        rw [← hiff]
        simp
  · rw [lookupTask_updateTask s.tasks id (SwarmTask.completeRow now) (fun u => rfl), hfind]
    simp [SwarmTask.completeRow]

/-- Witness for C9 at `replayState` (task 1 is already completed and the
execution is in `Reviewing`, so the success-iff-executing biconditional
yields a failing call). -/
theorem complete_task_replay_not_noop_witness :
    (completeTask swarmCfg wsNone 20 replayState 1).2.1 =
      SwarmEvent.TaskCompleted 1 ::
        SwarmEvent.ExecutionProgress
          (getProgress (updateTask replayState.tasks 1 (SwarmTask.completeRow 20))) ::
        (executeReadyTasks swarmCfg wsNone 20
          { replayState with
              tasks := updateTask replayState.tasks 1 (SwarmTask.completeRow 20)
              childTasks :=
                updateChildTask replayState.childTasks 11 TaskStatus.Done }).2.1 ∧
    ((∃ u, (completeTask swarmCfg wsNone 20 replayState 1).2.2 = Except.ok u) ↔
      replayState.execution.status = SwarmExecutionStatus.Executing) := by
  have h := complete_task_replay_not_noop swarmCfg wsNone 20 replayState 1
    (replayState.tasks.head (by simp [replayState])) (by rfl) (by rfl)
  exact ⟨h.1, h.2.1⟩

end VibeSwarm

namespace VibeSwarm

/-- Counterexample for C3: in the diamond `s0 -> {s1, s2} -> s3` (ids 1-4),
after `s1` fails permanently and the tick triggered by `s2`'s completion has
run, the execution is still `Executing` — it does not transition to
`Reviewing`, because `all_completed` rejects the `Failed` row of `s1`. -/
theorem diamond_failure_counterexample :
    (completeTask swarmCfg wsNone 8
        (failTask 7 diamondState 2 ("boom")).1 3).1.execution.status ≠
      SwarmExecutionStatus.Reviewing := by
  decide

/-- C3 (amended): in the diamond scenario with `s0` completed and `s1`
failing permanently (`max_retries = 0`), `s3` is skipped, `s2` runs to
completion and `s1` stays `Failed` — but the execution remains `Executing`
after the tick triggered by `s2`'s completion (the completion call itself
succeeds), since `SwarmTask::all_completed` requires every row to be
completed or skipped and `s1` is `Failed`. -/
theorem diamond_failure_execution_stays_executing :
    (((failTask 7 diamondState 2 ("boom")).1.tasks.map fun t => t.status) =
      [SwarmTaskStatus.Completed, SwarmTaskStatus.Failed,
        SwarmTaskStatus.Running, SwarmTaskStatus.Skipped]) ∧
    (((completeTask swarmCfg wsNone 8
        (failTask 7 diamondState 2 ("boom")).1 3).1.tasks.map fun t => t.status) =
      [SwarmTaskStatus.Completed, SwarmTaskStatus.Failed,
        SwarmTaskStatus.Completed, SwarmTaskStatus.Skipped]) ∧
    (completeTask swarmCfg wsNone 8
        (failTask 7 diamondState 2 ("boom")).1 3).2.2 = Except.ok () ∧
    allCompleted (completeTask swarmCfg wsNone 8
        (failTask 7 diamondState 2 ("boom")).1 3).1.tasks = false ∧
    (completeTask swarmCfg wsNone 8
        (failTask 7 diamondState 2 ("boom")).1 3).1.execution.status =
      SwarmExecutionStatus.Executing := by
  refine ⟨rfl, rfl, rfl, rfl, rfl⟩

end VibeSwarm

namespace VibeSwarm

theorem updateTask_map_id (tasks : List SwarmTask) (i : Nat) (f : SwarmTask → SwarmTask)
    (hf : ∀ u, (f u).id = u.id) :
    ((updateTask tasks i f).map fun t => t.id) = tasks.map fun t => t.id := by
  simp only [updateTask, List.map_map]
  apply List.map_congr_left
  intro u _
  by_cases h : u.id = i <;> simp [h, hf]

theorem updateTask_eq_self (tasks : List SwarmTask) (i : Nat) (f : SwarmTask → SwarmTask)
    (h : ∀ u ∈ tasks, u.id ≠ i) :
    updateTask tasks i f = tasks := by
  have hcong : ∀ u ∈ tasks, (if u.id = i then f u else u) = u := by
    intro u hu
    exact if_neg (h u hu)
  calc updateTask tasks i f = tasks.map id := List.map_congr_left hcong
  _ = tasks := List.map_id tasks

theorem updateTask_updateTask (tasks : List SwarmTask) (i : Nat)
    (f g : SwarmTask → SwarmTask) (hf : ∀ u, (f u).id = u.id) :
    updateTask (updateTask tasks i f) i g = updateTask tasks i fun u => g (f u) := by
  simp only [updateTask, List.map_map]
  apply List.map_congr_left
  intro u _
  by_cases h : u.id = i
  · simp [h, hf]
  · simp [h]

theorem runningCount_updateTask_le (tasks : List SwarmTask) (i : Nat)
    (f : SwarmTask → SwarmTask) (hnodup : (tasks.map fun t => t.id).Nodup) :
    (findRunningTasks (updateTask tasks i f)).length ≤
      (findRunningTasks tasks).length + 1 := by
  induction tasks with
  | nil =>
      simp [updateTask, findRunningTasks]
  | cons t rest ih =>
      simp only [List.map_cons, List.nodup_cons] at hnodup
      obtain ⟨hnotin, hnd⟩ := hnodup
      by_cases h : t.id = i
      · have hrest : updateTask rest i f = rest := by
          apply updateTask_eq_self
          intro u hu hui
          apply hnotin
          have hmem : u.id ∈ List.map (fun v => v.id) rest :=
            List.mem_map_of_mem (fun v => v.id) hu
          rw [hui, ← h] at hmem
          exact hmem
        simp only [updateTask, List.map_cons, if_pos h] at *
        rw [show (List.map (fun u => if u.id = i then f u else u) rest) = rest from hrest]
        cases hp1 : ((f t).status == SwarmTaskStatus.Running ||
            (f t).status == SwarmTaskStatus.Assigned) <;>
          cases hp2 : (t.status == SwarmTaskStatus.Running ||
              t.status == SwarmTaskStatus.Assigned) <;>
            (simp [findRunningTasks, List.filter_cons, hp1, hp2]
             try omega)
      · simp only [updateTask, List.map_cons, if_neg h]
        have ihr := ih hnd
        cases hp2 : (t.status == SwarmTaskStatus.Running ||
            t.status == SwarmTaskStatus.Assigned) <;>
          (simp only [findRunningTasks, List.filter_cons, hp2]
           simpa [findRunningTasks, updateTask] using ihr)

theorem startTask_tasks_map_id (cfg : SwarmManagerConfig) (wsNew : Nat → Option Nat)
    (now : Nat) (s : SwarmState) (t : SwarmTask) :
    (((startTask cfg wsNew now s t).1.tasks).map fun u => u.id) =
      s.tasks.map fun u => u.id := by
  rcases hfb : findBestAgent s.workers t.requiredSkills with e | agent
  · simp [startTask, hfb]
  · rcases hct : (s.childTasks.find? fun c => c.id == t.taskId) with _ | childTask
    · simp only [startTask, hfb, hct]
      exact updateTask_map_id s.tasks t.id _ (fun u => rfl)
    · rcases hws : wsNew t.id with _ | wid
      · simp only [startTask, hfb, hct, hws]
        exact updateTask_map_id s.tasks t.id _ (fun u => rfl)
      · simp only [startTask, hfb, hct, hws]
        rw [updateTask_map_id _ t.id (SwarmTask.startRow now) (fun u => rfl)]
        rw [updateTask_map_id _ t.id
          (SwarmTask.setWorkspaceRow wid (cfg.branchPfx ++ "/task-" ++ toString t.id))
          (fun u => rfl)]
        rw [updateTask_map_id s.tasks t.id (SwarmTask.assignAgentRow agent.id)
          (fun u => rfl)]

theorem startTask_running_le (cfg : SwarmManagerConfig) (wsNew : Nat → Option Nat)
    (now : Nat) (s : SwarmState) (t : SwarmTask)
    (hnodup : (s.tasks.map fun u => u.id).Nodup) :
    (findRunningTasks (startTask cfg wsNew now s t).1.tasks).length ≤
      (findRunningTasks s.tasks).length + 1 := by
  rcases hfb : findBestAgent s.workers t.requiredSkills with e | agent
  · simp [startTask, hfb]
  · rcases hct : (s.childTasks.find? fun c => c.id == t.taskId) with _ | childTask
    · simpa [startTask, hfb, hct] using
        runningCount_updateTask_le s.tasks t.id (SwarmTask.assignAgentRow agent.id) hnodup
    · rcases hws : wsNew t.id with _ | wid
      · simpa [startTask, hfb, hct, hws] using
          runningCount_updateTask_le s.tasks t.id (SwarmTask.assignAgentRow agent.id) hnodup
      · simp only [startTask, hfb, hct, hws]
        rw [updateTask_updateTask s.tasks t.id (SwarmTask.assignAgentRow agent.id)
            (SwarmTask.setWorkspaceRow wid (cfg.branchPfx ++ "/task-" ++ toString t.id))
            (fun u => rfl)]
        rw [updateTask_updateTask s.tasks t.id
            (fun u => SwarmTask.setWorkspaceRow wid
              (cfg.branchPfx ++ "/task-" ++ toString t.id)
              (SwarmTask.assignAgentRow agent.id u))
            (SwarmTask.startRow now) (fun u => rfl)]
        exact runningCount_updateTask_le s.tasks t.id _ hnodup

theorem tickFold_bound (cfg : SwarmManagerConfig) (wsNew : Nat → Option Nat)
    (now : Nat) (L : List SwarmTask) :
    ∀ (acc : SwarmState × List SwarmEvent × List Nat),
      ((acc.1.tasks.map fun u => u.id).Nodup) →
      (((L.foldl (tickStep cfg wsNew now) acc).1.tasks.map fun u => u.id) =
          acc.1.tasks.map fun u => u.id) ∧
      (findRunningTasks (L.foldl (tickStep cfg wsNew now) acc).1.tasks).length ≤
          (findRunningTasks acc.1.tasks).length + L.length ∧
      (L.foldl (tickStep cfg wsNew now) acc).2.2.length ≤ acc.2.2.length + L.length := by
  induction L with
  | nil =>
      intro acc _
      exact ⟨rfl, by simp, by simp⟩
  | cons t L ih =>
      intro acc hnodup
      rcases acc with ⟨s, events, started⟩
      have hid := startTask_tasks_map_id cfg wsNew now s t
      have hrun := startTask_running_le cfg wsNew now s t hnodup
      rcases hst : startTask cfg wsNew now s t with ⟨s1, evs, err⟩
      rw [hst] at hid hrun
      have hid1 : (s1.tasks.map fun u => u.id) = s.tasks.map fun u => u.id := hid
      have hrun1 : (findRunningTasks s1.tasks).length ≤
          (findRunningTasks s.tasks).length + 1 := hrun
      have hstep : tickStep cfg wsNew now (s, events, started) t =
          (s1, events ++ evs, if err.isNone then started ++ [t.id] else started) := by
        simp only [tickStep, hst]
        cases err <;> simp
      have hnodup1 : (s1.tasks.map fun u => u.id).Nodup := by
        rw [hid1]; exact hnodup
      have hlen1 : (if err.isNone then started ++ [t.id] else started).length ≤
          started.length + 1 := by
        cases err <;> simp
      obtain ⟨ih1, ih2, ih3⟩ := ih (s1, events ++ evs,
        if err.isNone then started ++ [t.id] else started) hnodup1
      refine ⟨?_, ?_, ?_⟩
      · simp only [List.foldl_cons, hstep]
        rw [ih1]
        exact hid1
      · simp only [List.foldl_cons, hstep]
        calc (findRunningTasks ((L.foldl (tickStep cfg wsNew now)
              (s1, events ++ evs, if err.isNone then started ++ [t.id]
                else started)).1.tasks)).length ≤
            (findRunningTasks s1.tasks).length + L.length := ih2
        _ ≤ (findRunningTasks s.tasks).length + 1 + L.length := by omega
        _ = (findRunningTasks s.tasks).length + (t :: L).length := by
            simp only [List.length_cons]
            omega
      · simp only [List.foldl_cons, hstep]
        calc (L.foldl (tickStep cfg wsNew now)
              (s1, events ++ evs, if err.isNone then started ++ [t.id]
                else started)).2.2.length ≤
            (if err.isNone then started ++ [t.id] else started).length + L.length := ih3
        _ ≤ started.length + 1 + L.length := by omega
        _ = started.length + (t :: L).length := by
            simp only [List.length_cons]
            omega

end VibeSwarm

namespace VibeSwarm

/-- C2: under unique row ids (primary key), a non-negative capacity and an
executing status, one scheduling tick starts at most
`max_parallel_workers - |Running ∪ Assigned|` new tasks, and if the bound
held before the tick then `|Running ∪ Assigned| ≤ max_parallel_workers`
holds after it. -/
theorem execute_ready_tasks_respects_capacity (cfg : SwarmManagerConfig)
    (wsNew : Nat → Option Nat) (now : Nat) (s : SwarmState)
    (hnodup : (s.tasks.map fun t => t.id).Nodup)
    (hmpw : 0 ≤ s.execution.maxParallelWorkers)
    (hexec : s.execution.status = SwarmExecutionStatus.Executing)
    (hpre : (findRunningTasks s.tasks).length ≤ s.execution.maxParallelWorkers.toNat) :
    ∃ l, (executeReadyTasks cfg wsNew now s).2.2 = Except.ok l ∧
      l.length ≤ s.execution.maxParallelWorkers.toNat -
        (findRunningTasks s.tasks).length ∧
      (findRunningTasks (executeReadyTasks cfg wsNew now s).1.tasks).length ≤
        s.execution.maxParallelWorkers.toNat := by
  have hi32 : i32AsUsize s.execution.maxParallelWorkers =
      s.execution.maxParallelWorkers.toNat := by
    unfold i32AsUsize
    rw [if_neg (by omega)]
  have hne : ¬(s.execution.status ≠ SwarmExecutionStatus.Executing) := by
    simp [hexec]
  by_cases hslots :
      i32AsUsize s.execution.maxParallelWorkers - (findRunningTasks s.tasks).length = 0
  · have hres : executeReadyTasks cfg wsNew now s = (s, [], Except.ok []) := by
      simp only [executeReadyTasks]
      rw [if_neg hne]
      simp only [hslots]
      simp
    refine ⟨[], by rw [hres], by simp, ?_⟩
    rw [hres]
    exact hpre
  · obtain ⟨h1, h2, h3⟩ := tickFold_bound cfg wsNew now
      ((findReadyTasks s.tasks).take
        (i32AsUsize s.execution.maxParallelWorkers - (findRunningTasks s.tasks).length))
      (s, [], []) hnodup
    have htake : ((findReadyTasks s.tasks).take
        (i32AsUsize s.execution.maxParallelWorkers -
          (findRunningTasks s.tasks).length)).length ≤
        i32AsUsize s.execution.maxParallelWorkers - (findRunningTasks s.tasks).length := by
      rw [List.length_take]
      exact Nat.min_le_left _ _
    rcases hfd : ((findReadyTasks s.tasks).take
        (i32AsUsize s.execution.maxParallelWorkers -
          (findRunningTasks s.tasks).length)).foldl (tickStep cfg wsNew now)
        (s, [], []) with ⟨s1, events, startedIds⟩
    rw [hfd] at h2 h3
    have h2' : (findRunningTasks s1.tasks).length ≤
        (findRunningTasks s.tasks).length +
          ((findReadyTasks s.tasks).take
            (i32AsUsize s.execution.maxParallelWorkers -
              (findRunningTasks s.tasks).length)).length := h2
    have h3' : startedIds.length ≤
        ((findReadyTasks s.tasks).take
          (i32AsUsize s.execution.maxParallelWorkers -
            (findRunningTasks s.tasks).length)).length := by
      have := h3
      simpa using this
    have hrun1 : (findRunningTasks s1.tasks).length ≤
        s.execution.maxParallelWorkers.toNat := by
      rw [hi32] at h2' htake
      omega
    have hstarted : startedIds.length ≤
        s.execution.maxParallelWorkers.toNat - (findRunningTasks s.tasks).length := by
      rw [hi32] at h3' htake
      omega
    have hres : executeReadyTasks cfg wsNew now s =
        (if allCompleted s1.tasks then
          ({ s1 with execution :=
              s1.execution.updateStatus SwarmExecutionStatus.Reviewing now },
            events ++ [SwarmEvent.ConsensusRequired s1.execution.id],
            Except.ok startedIds)
        else (s1, events, Except.ok startedIds)) := by
      simp only [executeReadyTasks]
      rw [if_neg hne]
      simp only [if_neg hslots]
      rw [hfd]
    refine ⟨startedIds, ?_, hstarted, ?_⟩
    · rw [hres]
      split <;> rfl
    · rw [hres]
      split
      · exact hrun1
      · exact hrun1

/-- Witness for C2 at the fan-out fixture: capacity 2, no task running. -/
theorem execute_ready_tasks_respects_capacity_witness :
    ∃ l, (executeReadyTasks swarmCfg wsSome 1 fanOutState).2.2 = Except.ok l ∧
      l.length ≤ fanOutState.execution.maxParallelWorkers.toNat -
        (findRunningTasks fanOutState.tasks).length ∧
      (findRunningTasks (executeReadyTasks swarmCfg wsSome 1 fanOutState).1.tasks).length ≤
        fanOutState.execution.maxParallelWorkers.toNat :=
  execute_ready_tasks_respects_capacity swarmCfg wsSome 1 fanOutState
    (by decide) (by decide) (by rfl) (by decide)

end VibeSwarm

namespace VibeSwarm

theorem SkippedFrom.rfl (db : List SwarmTask) : SkippedFrom db db := by
  rw [SkippedFrom, List.forall₂_same]
  intro t _
  exact Or.inl (Eq.refl t)

theorem skippedFrom_updateTask_skip (db : List SwarmTask) (i : Nat) :
    SkippedFrom (updateTask db i SwarmTask.skipRow) db := by
  rw [SkippedFrom, updateTask, List.forall₂_map_left_iff, List.forall₂_same]
  intro t _
  by_cases h : t.id = i
  · rw [if_pos h]
    exact Or.inr (Eq.refl _)
  · rw [if_neg h]
    exact Or.inl (Eq.refl t)

theorem SkippedFrom.trans {db2 db1 db : List SwarmTask}
    (h21 : SkippedFrom db2 db1) (h10 : SkippedFrom db1 db) : SkippedFrom db2 db := by
  induction h10 generalizing db2 with
  | nil =>
      cases h21
      exact List.Forall₂.nil
  | cons hr htail ih =>
      cases h21 with
      | cons hr2 htail2 =>
          refine List.Forall₂.cons ?_ (ih htail2)
          rcases hr2 with h2 | h2 <;> rcases hr with h1 | h1 <;> subst h2 <;> subst h1
          · exact Or.inl (Eq.refl _)
          · exact Or.inr (Eq.refl _)
          · exact Or.inr (Eq.refl _)
          · exact Or.inr (Eq.refl _)

theorem pendingCount_cons (t : SwarmTask) (rest : List SwarmTask) :
    pendingCount (t :: rest) =
      (if t.status == SwarmTaskStatus.Pending then 1 else 0) + pendingCount rest := by
  cases h : (t.status == SwarmTaskStatus.Pending) with
  | false => simp [pendingCount, List.filter_cons, h]
  | true =>
      simp [pendingCount, List.filter_cons, h]
      omega

theorem pendingCount_le_of_skippedFrom {db' db : List SwarmTask}
    (h : SkippedFrom db' db) : pendingCount db' ≤ pendingCount db := by
  induction h with
  | nil => exact Nat.le.refl
  | cons hr htail ih =>
      rcases hr with h1 | h1 <;> subst h1
      · rw [pendingCount_cons, pendingCount_cons]
        omega
      · rw [pendingCount_cons, pendingCount_cons]
        simp only [show (SwarmTaskStatus.Skipped == SwarmTaskStatus.Pending) = false from
          rfl, Bool.false_eq_true, if_false]
        omega

theorem pendingCount_pos_of_mem {db : List SwarmTask} {t : SwarmTask}
    (hmem : t ∈ db) (hp : t.status = SwarmTaskStatus.Pending) :
    0 < pendingCount db := by
  induction db with
  | nil => cases hmem
  | cons u rest ih =>
      rw [pendingCount_cons]
      rcases List.mem_cons.mp hmem with h | h
      · subst h
        rw [if_pos (by simp [hp])]
        omega
      · have := ih h
        omega

theorem pendingCount_skip_lt {db' db : List SwarmTask} (hsf : SkippedFrom db' db) :
    ∀ t ∈ db, t.status = SwarmTaskStatus.Pending →
      pendingCount (updateTask db' t.id SwarmTask.skipRow) < pendingCount db := by
  induction hsf with
  | nil =>
      intro t hmem
      cases hmem
  | @cons a' a l' l hr htail ih =>
      intro t hmem hp
      rcases List.mem_cons.mp hmem with h | h
      · subst h
        have hid : a'.id = t.id := by
          rcases hr with h1 | h1 <;> rw [h1]
        simp only [updateTask, List.map_cons, if_pos hid]
        rw [show (List.map (fun u => if u.id = t.id then SwarmTask.skipRow u else u) l') =
            updateTask l' t.id SwarmTask.skipRow from Eq.refl _]
        rw [pendingCount_cons, pendingCount_cons]
        have hle : pendingCount (updateTask l' t.id SwarmTask.skipRow) ≤ pendingCount l := by
          calc pendingCount (updateTask l' t.id SwarmTask.skipRow) ≤ pendingCount l' :=
              pendingCount_le_of_skippedFrom (skippedFrom_updateTask_skip l' t.id)
          _ ≤ pendingCount l := pendingCount_le_of_skippedFrom htail
        have hskip : ((SwarmTask.skipRow a').status == SwarmTaskStatus.Pending) = false := by
          simp [SwarmTask.skipRow]
        rw [hskip]
        simp only [Bool.false_eq_true, if_false]
        rw [if_pos (show (t.status == SwarmTaskStatus.Pending) = true by simp [hp])]
        omega
      · simp only [updateTask, List.map_cons]
        rw [show (List.map (fun u => if u.id = t.id then SwarmTask.skipRow u else u) l') =
            updateTask l' t.id SwarmTask.skipRow from Eq.refl _]
        rw [pendingCount_cons, pendingCount_cons]
        have hlt := ih t h hp
        have hhead : (if ((if a'.id = t.id then SwarmTask.skipRow a' else a').status ==
            SwarmTaskStatus.Pending) then 1 else 0) ≤
            (if (a.status == SwarmTaskStatus.Pending) then 1 else 0) := by
          by_cases hc : a'.id = t.id
          · rw [if_pos hc]
            simp [SwarmTask.skipRow]
          · rw [if_neg hc]
            rcases hr with h1 | h1 <;> subst h1
            · exact Nat.le.refl
            · simp
        omega

end VibeSwarm

namespace VibeSwarm

theorem skipFuel_succ (fuel : Nat) (db : List SwarmTask) (i : Nat) :
    skipDependentTasksFuel (fuel + 1) db i =
      db.foldl (fun acc t =>
        if i ∈ t.dependsOn ∧ t.status = SwarmTaskStatus.Pending then
          skipDependentTasksFuel fuel (updateTask acc t.id SwarmTask.skipRow) t.id
        else acc) db := rfl

theorem skipFuel_skippedFrom :
    ∀ (fuel : Nat) (db : List SwarmTask) (i : Nat),
      SkippedFrom (skipDependentTasksFuel fuel db i) db := by
  intro fuel
  induction fuel with
  | zero =>
      intro db i
      exact SkippedFrom.rfl db
  | succ fuel ih =>
      intro db i
      rw [skipFuel_succ]
      have hloop : ∀ (snap : List SwarmTask) (acc : List SwarmTask),
          SkippedFrom acc db →
          SkippedFrom (snap.foldl (fun acc t =>
            if i ∈ t.dependsOn ∧ t.status = SwarmTaskStatus.Pending then
              skipDependentTasksFuel fuel (updateTask acc t.id SwarmTask.skipRow) t.id
            else acc) acc) db := by
        intro snap
        induction snap with
        | nil => exact fun acc hacc => hacc
        | cons t rest ihs =>
            intro acc hacc
            simp only [List.foldl_cons]
            by_cases hg : i ∈ t.dependsOn ∧ t.status = SwarmTaskStatus.Pending
            · rw [if_pos hg]
              apply ihs
              exact (ih (updateTask acc t.id SwarmTask.skipRow) t.id).trans
                ((skippedFrom_updateTask_skip acc t.id).trans hacc)
            · rw [if_neg hg]
              exact ihs acc hacc
      exact hloop db db (SkippedFrom.rfl db)

theorem skipFuel_stabilizes (n : Nat) :
    ∀ (db : List SwarmTask) (i f g : Nat),
      pendingCount db ≤ n → pendingCount db < f → pendingCount db < g →
      skipDependentTasksFuel f db i = skipDependentTasksFuel g db i := by
  induction n using Nat.strong_induction_on with
  | _ n ih =>
      intro db i f g hn hf hg
      obtain ⟨f', rfl⟩ : ∃ f'', f = f'' + 1 := ⟨f - 1, by omega⟩
      obtain ⟨g', rfl⟩ : ∃ g'', g = g'' + 1 := ⟨g - 1, by omega⟩
      rw [skipFuel_succ, skipFuel_succ]
      have hloop : ∀ (snap : List SwarmTask), (∀ t ∈ snap, t ∈ db) →
          ∀ (acc : List SwarmTask), SkippedFrom acc db →
          snap.foldl (fun acc t =>
            if i ∈ t.dependsOn ∧ t.status = SwarmTaskStatus.Pending then
              skipDependentTasksFuel f' (updateTask acc t.id SwarmTask.skipRow) t.id
            else acc) acc =
          snap.foldl (fun acc t =>
            if i ∈ t.dependsOn ∧ t.status = SwarmTaskStatus.Pending then
              skipDependentTasksFuel g' (updateTask acc t.id SwarmTask.skipRow) t.id
            else acc) acc := by
        intro snap
        induction snap with
        | nil =>
            intro _ acc _
            rfl
        | cons t rest ihs =>
            intro hsnap acc hacc
            simp only [List.foldl_cons]
            by_cases hg2 : i ∈ t.dependsOn ∧ t.status = SwarmTaskStatus.Pending
            · rw [if_pos hg2, if_pos hg2]
              have hmem : t ∈ db := hsnap t (by simp)
              have hlt : pendingCount (updateTask acc t.id SwarmTask.skipRow) <
                  pendingCount db :=
                pendingCount_skip_lt hacc t hmem hg2.2
              have heq :
                  skipDependentTasksFuel f' (updateTask acc t.id SwarmTask.skipRow) t.id =
                    skipDependentTasksFuel g' (updateTask acc t.id SwarmTask.skipRow) t.id := by
                apply ih (pendingCount (updateTask acc t.id SwarmTask.skipRow)) (by omega)
                · exact Nat.le.refl
                · omega
                · omega
              rw [heq]
              apply ihs (fun u hu => hsnap u (by simp [hu]))
              exact (skipFuel_skippedFrom g' _ t.id).trans
                ((skippedFrom_updateTask_skip acc t.id).trans hacc)
            · rw [if_neg hg2, if_neg hg2]
              exact ihs (fun u hu => hsnap u (by simp [hu])) acc hacc
      exact hloop db (fun t ht => ht) db (SkippedFrom.rfl db)

/-- C10: `skip_dependent_tasks` terminates on every stored dependency graph,
cyclic or self-referencing `depends_on` data included: any fuel beyond the
number of `Pending` rows computes the same (stable) result as
`skipDependentTasks`, and the run at most flips `Pending` rows to `Skipped`
(each row is either untouched or has exactly its status overwritten). -/
theorem skip_dependent_tasks_terminates (db : List SwarmTask) (i f g : Nat)
    (hf : pendingCount db < f) (hg : pendingCount db < g) :
    skipDependentTasksFuel f db i = skipDependentTasksFuel g db i ∧
    skipDependentTasksFuel f db i = skipDependentTasks db i ∧
    SkippedFrom (skipDependentTasksFuel f db i) db := by
  refine ⟨?_, ?_, skipFuel_skippedFrom f db i⟩
  · exact skipFuel_stabilizes (pendingCount db) db i f g Nat.le.refl hf hg
  · exact skipFuel_stabilizes (pendingCount db) db i f (pendingCount db + 1)
      Nat.le.refl hf (by omega)

/-- Witness for C10 on the cyclic fixture (3 pending rows): fuels 4 and 17
agree with the canonical run. -/
theorem skip_dependent_tasks_terminates_witness :
    skipDependentTasksFuel 4 cyclicTasks 1 = skipDependentTasksFuel 17 cyclicTasks 1 ∧
    skipDependentTasksFuel 4 cyclicTasks 1 = skipDependentTasks cyclicTasks 1 ∧
    SkippedFrom (skipDependentTasksFuel 4 cyclicTasks 1) cyclicTasks :=
  skip_dependent_tasks_terminates cyclicTasks 1 4 17 (by decide) (by decide)

end VibeSwarm
